import Mathlib

/-!
Shallow embedding of src/python-back/network_server.py (the traffic-ingestion
and anomaly-detection engine of the auditoria-red repository).

Python dictionaries keyed by IP are modelled as association lists
(insertion-ordered, unique keys, like a Python dict); Python ints are Lean
Int; byte strings already decoded with errors ignored are Lean String.
Every definition is translated from the source file; line numbers in the
doc comments refer to network_server.py.
-/

/-- Association-list lookup, the model of a Python dict read d[k] / k in d. -/
def alookup {β : Type} (k : String) : List (String × β) → Option β
  | [] => none
  | (k2, v) :: rest => if k2 = k then some v else alookup k rest

/-- Association-list in-place update of the record stored at key k,
the model of mutating the dict value d[k] (keys are unique). -/
def aupdate {β : Type} (k : String) (f : β → β) : List (String × β) → List (String × β)
  | [] => []
  | (k2, v) :: rest => if k2 = k then (k2, f v) :: rest else (k2, v) :: aupdate k f rest

/-- Map a function over every stored record, the model of the Python
pattern for device in d.values(): mutate device. -/
def amap {β : Type} (f : β → β) : List (String × β) → List (String × β)
  | [] => []
  | (k2, v) :: rest => (k2, f v) :: amap f rest

/-- Lowercase one ASCII character, the model of Python str.lower per
character (the source only lowercases to test for the ASCII Host header). -/
def py_lower_char (c : Char) : Char :=
  if 65 ≤ c.toNat ∧ c.toNat ≤ 90 then Char.ofNat (c.toNat + 32) else c

/-- Uppercase one ASCII character, the model of Python str.upper per
character (the source only uppercases MAC OUI hex text). -/
def py_upper_char (c : Char) : Char :=
  if 97 ≤ c.toNat ∧ c.toNat ≤ 122 then Char.ofNat (c.toNat - 32) else c

/-- Model of Python str.lower on ASCII text. -/
def py_lower (s : String) : String :=
  ⟨s.data.map py_lower_char⟩

/-- Model of Python str.upper on ASCII text. -/
def py_upper (s : String) : String :=
  ⟨s.data.map py_upper_char⟩

/-- Model of Python str.startswith. -/
def py_startsWith (p s : String) : Bool :=
  p.data.isPrefixOf s.data

/-- Whitespace characters stripped by Python str.strip. -/
def py_ws (c : Char) : Bool :=
  c = ' ' ∨ c = '\t' ∨ c = '\n' ∨ c = '\x0d' ∨ c = '\x0b' ∨ c = '\x0c'

/-- Model of Python str.strip with no argument. -/
def py_strip (s : String) : String :=
  ⟨(((s.data.dropWhile py_ws).reverse.dropWhile py_ws).reverse)⟩

/-- Model of Python s[:n] on a string. -/
def py_take (n : Nat) (s : String) : String :=
  ⟨s.data.take n⟩

/-- Split a character list on a one-character separator, like Python
str.split with that separator. -/
def split1 (a : Char) : List Char → List (List Char)
  | [] => [[]]
  | c :: rest =>
    if c = a then [] :: split1 a rest
    else
      match split1 a rest with
      | [] => [[c]]
      | g :: gs => (c :: g) :: gs

/-- Split a character list on a two-character separator, like Python
str.split with that separator, scanning left to right. -/
def split2 (a b : Char) : List Char → List (List Char)
  | [] => [[]]
  | [c] => [[c]]
  | c :: c2 :: rest =>
    if c = a ∧ c2 = b then
      [] :: split2 a b rest
    else
      match split2 a b (c2 :: rest) with
      | [] => [[c]]
      | g :: gs => (c :: g) :: gs

/-- Model of Python s.split(sep) for a one-character separator. -/
def py_split1 (a : Char) (s : String) : List String :=
  (split1 a s.data).map (fun cs => ⟨cs⟩)

/-- Model of Python s.split(sep) for a two-character separator. -/
def py_split2 (a b : Char) (s : String) : List String :=
  (split2 a b s.data).map (fun cs => ⟨cs⟩)

/-- Configuration constant DETECTION_WINDOW_SIZE (line 86). -/
def DETECTION_WINDOW_SIZE : Nat := 5

/-- Configuration constant DEFAULT_PACKET_LIMIT (line 87). -/
def DEFAULT_PACKET_LIMIT : Int := 1500

/-- Model of one captured frame after Scapy parsing, restricted to frames
that pass the guard of packet_callback (IP layer with src, Ether layer):
frames failing the guard are ignored by the callback and carry no state.
tcp and udp hold (sport, dport) when the layer is present; raw holds the
payload decoded with utf-8 errors ignored (which never fails). -/
structure Packet where
  src_ip : String
  src_mac : String
  length : Nat
  ttl : Nat
  tcp : Option (Nat × Nat)
  udp : Option (Nat × Nat)
  icmp : Bool
  raw : Option String
deriving DecidableEq, Repr

/-- Model of one device record of network_devices (lines 178-201). -/
structure Device where
  id : String
  ip : String
  macAddress : String
  manufacturer : String
  os_fingerprint : String
  status : String
  packetCount : Nat
  recentPacketHistory : List Nat
  bandwidthHistoryTotal : Nat
  recentBandwidthRate : List Nat
  packetLimit : Int
  last_protocol : String
  last_port : Option Nat
  is_local : Bool
  deviceType : String
  last_visited_domain : String
  packetLengthThisCycle : List Nat
deriving DecidableEq, Repr

/-- The device registry network_devices: a Python dict ip to device. -/
abbrev Registry : Type := List (String × Device)

/-- Function get_os_fingerprint (lines 41-52). -/
def get_os_fingerprint (ttl : Nat) : String :=
  if 50 ≤ ttl ∧ ttl ≤ 70 then "Linux/Unix (TTL ~64)"
  else if 110 ≤ ttl ∧ ttl ≤ 135 then "Windows (TTL ~128)"
  else if 240 ≤ ttl ∧ ttl ≤ 255 then "Antiguo/IoT (TTL ~255)"
  else "Desconocido/Router"

/-- The static table OUI_MAPPING (lines 56-63). -/
def OUI_MAPPING : List (String × String) :=
  [("90:3A:D9", "Apple, Inc. (iPhone/Mac)"),
   ("00:0C:29", "VMware, Inc."),
   ("00:50:56", "VMware, Inc."),
   ("00:00:0C", "Cisco Systems"),
   ("A4:7B:2D", "Samsung"),
   ("C8:3E:99", "Dell")]

/-- Function get_manufacturer (lines 65-70): the Python truthiness test
"if mac" is the non-empty test for a string. -/
def get_manufacturer (mac : String) : String :=
  if mac ≠ "" ∧ mac ≠ "00:00:00:00:00:00" then
    ((alookup (py_upper (py_take 8 mac)) OUI_MAPPING).getD "Fabricante Desconocido")
  else "N/A"

/-- The table DEVICE_TYPES_MAP (lines 76-82), keyed by octet mod 4. -/
def DEVICE_TYPES_MAP (k : Nat) : String :=
  if k = 0 then "PC/Laptop"
  else if k = 1 then "Móvil/Tablet"
  else if k = 2 then "Servidor"
  else "Doméstico/IoT (TV, etc.)"

/-- Helper for the model of Python int(s) on a string: fold the digit
characters, none when a non-digit appears or the list is empty. -/
def digits_to_nat (cs : List Char) : Option Nat :=
  if cs = [] then none
  else cs.foldl
    (fun acc c =>
      match acc with
      | none => none
      | some n => if 48 ≤ c.toNat ∧ c.toNat ≤ 57 then some (n * 10 + (c.toNat - 48)) else none)
    (some 0)

/-- Model of Python int(s) for a string argument: surrounding whitespace
is stripped, an optional sign is allowed, then decimal digits; none models
the ValueError raised on any other shape. -/
def py_str_to_int (s : String) : Option Int :=
  match (py_strip s).data with
  | [] => none
  | c :: rest =>
    if c = '+' then (digits_to_nat rest).map (fun n => (n : Int))
    else if c = '-' then (digits_to_nat rest).map (fun n => -(n : Int))
    else (digits_to_nat (c :: rest)).map (fun n => (n : Int))

/-- Scan of the payload lines for a Host header, the loop body of
extract_domain (lines 110-114): the first line whose lowercase form starts
with the host prefix returns; a line lacking the ": " separator raises
IndexError on [1], caught as the decode-error sentinel. -/
def host_from_lines : List String → Option String
  | [] => none
  | line :: rest =>
    if py_startsWith "host:" (py_lower line) then
      match (py_split2 ':' ' ' line).get? 1 with
      | some v => some (py_strip v)
      | none => some "HTTP (Error Decodificando)"
    else host_from_lines rest

/-- Function extract_domain (lines 105-122), translated branch by branch:
the port-80 Host scan runs first and only its hit returns early; then the
443, 53 and fallback branches. -/
def extract_domain (pkt : Packet) : String :=
  let step80 : Option String :=
    match pkt.tcp with
    | some (sport, dport) =>
      if dport = 80 ∨ sport = 80 then
        match pkt.raw with
        | some payload => host_from_lines (py_split2 '\x0d' '\n' payload)
        | none => none
      else none
    | none => none
  match step80 with
  | some d => d
  | none =>
    match pkt.tcp with
    | some (sport, dport) =>
      if dport = 443 ∨ sport = 443 then "HTTPS (Dominio Cifrado)"
      else
        match pkt.udp with
        | some (sport2, dport2) =>
          if dport2 = 53 ∨ sport2 = 53 then "DNS (Nombre Cifrado)"
          else "N/A o Protocolo No Web"
        | none => "N/A o Protocolo No Web"
    | none =>
      match pkt.udp with
      | some (sport2, dport2) =>
        if dport2 = 53 ∨ sport2 = 53 then "DNS (Nombre Cifrado)"
        else "N/A o Protocolo No Web"
      | none => "N/A o Protocolo No Web"

/-- Protocol classification inside packet_callback (lines 152-160). -/
def protocol_of (pkt : Packet) : String :=
  if pkt.icmp then "ICMP"
  else if pkt.tcp.isSome then "TCP"
  else if pkt.udp.isSome then "UDP"
  else "Otros"

/-- Destination-port extraction inside packet_callback (lines 162-166);
none models the empty-string initial value. -/
def dst_port_of (pkt : Packet) : Option Nat :=
  match pkt.tcp with
  | some (_, dport) => some dport
  | none =>
    match pkt.udp with
    | some (_, dport) => some dport
    | none => none

/-- Last octet of the IP as a string: src_ip.split('.')[-1], which always
exists since split returns a non-empty list. -/
def last_octet_str (ip : String) : String :=
  ((py_split1 '.' ip).getLast?).getD ""

/-- Creation of a new device record (lines 169-201): the device-type
octet parse falls back to entry 0 on ValueError; Python mod on the
possibly negative int is the non-negative remainder, matching Int.emod. -/
def mkNewDevice (pkt : Packet) : Device :=
  let device_type :=
    match py_str_to_int (last_octet_str pkt.src_ip) with
    | some n => DEVICE_TYPES_MAP ((n % 4).toNat)
    | none => DEVICE_TYPES_MAP 0
  { id := if pkt.src_ip ≠ "127.0.0.1" then "HOST-" ++ last_octet_str pkt.src_ip
          else "LOCALHOST (127.0.0.1)"
    ip := pkt.src_ip
    macAddress := pkt.src_mac
    manufacturer := get_manufacturer pkt.src_mac
    os_fingerprint := get_os_fingerprint pkt.ttl
    status := "Connected"
    packetCount := 0
    recentPacketHistory := []
    bandwidthHistoryTotal := 0
    recentBandwidthRate := []
    packetLimit := DEFAULT_PACKET_LIMIT
    last_protocol := protocol_of pkt
    last_port := dst_port_of pkt
    is_local := py_startsWith "192.168." pkt.src_ip || py_startsWith "10." pkt.src_ip
                || py_startsWith "172." pkt.src_ip
    deviceType := device_type
    last_visited_domain := extract_domain pkt
    packetLengthThisCycle := [] }

/-- Per-frame update of an existing record, the body guarded by the
non-Blocked test in packet_callback (lines 210-231); a Blocked device is
left untouched (the defensive packetLengthThisCycle initialisation of
line 207 is a no-op here since the field always exists in the model). -/
def ingest_update (pkt : Packet) (d : Device) : Device :=
  if d.status ≠ "Blocked" then
    let d1 := { d with packetCount := d.packetCount + 1,
                       last_protocol := protocol_of pkt,
                       last_port := dst_port_of pkt }
    let d2 := if d1.os_fingerprint = "Desconocido/Router" ∨
                 d1.os_fingerprint = "Linux/Unix (TTL ~64)"
              then { d1 with os_fingerprint := get_os_fingerprint pkt.ttl } else d1
    let d3 := if d2.macAddress = "00:00:00:00:00:00" ∨ d2.manufacturer = "N/A"
              then { d2 with macAddress := pkt.src_mac,
                             manufacturer := get_manufacturer pkt.src_mac } else d2
    let d4 := { d3 with bandwidthHistoryTotal := d3.bandwidthHistoryTotal + pkt.length,
                        packetLengthThisCycle := d3.packetLengthThisCycle ++ [pkt.length] }
    if extract_domain pkt ≠ "N/A o Protocolo No Web" ∧
       extract_domain pkt ≠ "DNS (Nombre Cifrado)"
    then { d4 with last_visited_domain := extract_domain pkt }
    else d4
  else d

/-- Function packet_callback (lines 128-231) on the registry: discovery of
an unknown source IP appends a fresh record (dict insertion order), then
the guarded per-frame update runs on the record for that IP. -/
def packet_callback (pkt : Packet) (nd : Registry) : Registry :=
  match alookup pkt.src_ip nd with
  | none => aupdate pkt.src_ip (ingest_update pkt) (nd ++ [(pkt.src_ip, mkNewDevice pkt)])
  | some _ => aupdate pkt.src_ip (ingest_update pkt) nd

/-- Start-of-cycle reset of the per-cycle scratch list (lines 250-257),
applied to every device, Blocked ones included. -/
def clear_cycle (d : Device) : Device :=
  { d with packetLengthThisCycle := [] }

/-- End-of-cycle aggregation for one device (lines 284-307): for a
non-Blocked device, a cycle with traffic appends the per-cycle packet
count and byte sum, then each history is trimmed to the window by popping
the oldest entry. -/
def aggregate_device (d : Device) : Device :=
  if d.status ≠ "Blocked" then
    let bytes := d.packetLengthThisCycle.sum
    let d1 := if bytes > 0 then
        { d with recentPacketHistory := d.recentPacketHistory ++ [d.packetLengthThisCycle.length],
                 recentBandwidthRate := d.recentBandwidthRate ++ [bytes] }
      else d
    let d2 := if d1.recentPacketHistory.length > DETECTION_WINDOW_SIZE then
        { d1 with recentPacketHistory := d1.recentPacketHistory.tail } else d1
    let d3 := if d2.recentBandwidthRate.length > DETECTION_WINDOW_SIZE then
        { d2 with recentBandwidthRate := d2.recentBandwidthRate.tail } else d2
    d3
  else d

/-- Detection body of update_network_status for one device (lines 341-362):
Blocked devices are skipped; otherwise the window sum above the limit
blocks the device and clears both histories. -/
def detect_device (d : Device) : Device :=
  if d.status = "Blocked" then d
  else if (d.recentPacketHistory.sum : Int) > d.packetLimit then
    { d with status := "Blocked", recentPacketHistory := [], recentBandwidthRate := [] }
  else d

/-- The query-time detection pass of update_network_status over the whole
registry (lines 339-362). -/
def detection_pass (nd : Registry) : Registry :=
  amap detect_device nd

/-- The status dict built by update_network_status (lines 368-371). -/
structure NetStatus where
  isRunning : Bool
  simulating : Bool
deriving DecidableEq, Repr

/-- Function update_network_status (lines 329-373): raises when the
sniffing loop is not running (modelled as Except.error, the registry
untouched); otherwise runs the detection pass and returns the mutated
registry, the device list and the status dict. -/
def update_network_status (running : Bool) (nd : Registry) :
    Except String (Registry × List Device × NetStatus) :=
  if running then
    let nd2 := detection_pass nd
    .ok (nd2, nd2.map Prod.snd, ⟨true, false⟩)
  else
    .error "El hilo de auditoría real no está activo. Verifique los logs de error."

/-- HTTP response of the network_status endpoint. -/
structure StatusResponse where
  code : Nat
  devices : List Device
  status : NetStatus
deriving DecidableEq, Repr

/-- Endpoint get_network_status (lines 390-401): any exception from
update_network_status is caught and answered with 500, an empty device
list and isRunning false. -/
def get_network_status (running : Bool) (nd : Registry) : Registry × StatusResponse :=
  match update_network_status running nd with
  | .ok (nd2, devs, st) => (nd2, ⟨200, devs, st⟩)
  | .error _ => (nd, ⟨500, [], ⟨false, false⟩⟩)

/-- JSON values that can arrive in the device_action request body for the
limit field; an absent or null limit is modelled as Option.none at the use
site, so no null constructor is needed. Fractional JSON numbers are out of
scope of the model. -/
inductive Json
  | jint (n : Int)
  | jstr (s : String)
  | jbool (b : Bool)
  | jarr (xs : List Json)

/-- The two Python exception classes int(x) can raise here. -/
inductive PyErr
  | valueError
  | typeError
deriving DecidableEq, Repr

/-- Model of Python int(x) on a JSON value: numbers pass through, bools
coerce, strings parse or raise ValueError, arrays raise TypeError. -/
def py_int : Json → Except PyErr Int
  | .jint n => .ok n
  | .jbool b => .ok (if b then 1 else 0)
  | .jstr s =>
    match py_str_to_int s with
    | some n => .ok n
    | none => .error .valueError
  | .jarr _ => .error .typeError

/-- Limit handling of device_action (lines 423-432): only ValueError is
caught and passed over; a positive parse replaces packetLimit; a
TypeError escapes the handler. -/
def apply_limit (limit : Option Json) (d : Device) : Except PyErr Device :=
  match limit with
  | none => .ok d
  | some v =>
    match py_int v with
    | .ok n => .ok (if n > 0 then { d with packetLimit := n } else d)
    | .error .valueError => .ok d
    | .error .typeError => .error .typeError

/-- Status change of device_action (lines 416-421): unknown actions leave
the record as it is. -/
def act_status (action : String) (d : Device) : Device :=
  if action = "block" then { d with status := "Blocked" }
  else if action = "unblock" then { d with status := "Connected" }
  else d

/-- HTTP response of the device_action endpoint. -/
structure ActionResponse where
  code : Nat
  success : Bool
  device : Option Device
deriving DecidableEq, Repr

/-- Endpoint device_action (lines 404-438). The record is mutated in
place, so the status change survives even when the limit step raises: the
returned pair is (registry after the call, response or escaped
exception). An unknown IP answers 404 with success false. -/
def device_action (ip action : String) (limit : Option Json) (nd : Registry) :
    Registry × Except PyErr ActionResponse :=
  match alookup ip nd with
  | none => (nd, .ok ⟨404, false, none⟩)
  | some d0 =>
    let d1 := act_status action d0
    match apply_limit limit d1 with
    | .ok d2 => (aupdate ip (fun _ => d2) nd, .ok ⟨200, true, some d2⟩)
    | .error e => (aupdate ip (fun _ => d1) nd, .error e)

/-- The registry-mutating operations of the program, used to state
whole-system invariants: one ingested frame, the start-of-cycle scratch
reset, the end-of-cycle aggregation, the query-time detection pass, a
device-action request, and the reset endpoint (initialize_devices). -/
inductive Op
  | frame (pkt : Packet)
  | cycleStart
  | cycleEnd
  | detectorPass
  | action (ip act : String) (limit : Option Json)
  | reset

/-- Effect of one operation on the registry. -/
def step : Op → Registry → Registry
  | .frame pkt, nd => packet_callback pkt nd
  | .cycleStart, nd => amap clear_cycle nd
  | .cycleEnd, nd => amap aggregate_device nd
  | .detectorPass, nd => detection_pass nd
  | .action ip a l, nd => (device_action ip a l nd).1
  | .reset, _ => []

/-- One full iteration of sniffing_loop while running (lines 248-310):
scratch reset, the captured frames through packet_callback, then the
aggregation pass. -/
def run_cycle (frames : List Packet) (nd : Registry) : Registry :=
  amap aggregate_device (frames.foldl (fun acc p => packet_callback p acc) (amap clear_cycle nd))

/-- Whole-system state: the is_sniffing_running flag, the registry, and a
count of completed capture cycles (an observation used to state that no
further capture attempt happens once the loop stops). -/
structure SState where
  running : Bool
  nd : Registry
  captures : Nat

/-- System-level events: a successful capture cycle, the capture
collaborator raising inside sniff (lines 274-280: the flag is cleared and
the loop breaks), a status query, a device action, a reset. -/
inductive Ev
  | cycle (frames : List Packet)
  | captureError
  | query
  | action (ip act : String) (limit : Option Json)
  | reset

/-- Effect of one event on the system state. The loop body (cycle,
captureError) only executes while the flag is set — the while condition of
line 248 — and nothing outside start_continuous_sniffing ever sets the
flag back to true. A query routes through get_network_status, which
leaves the registry alone when the loop is stopped. -/
def sys_step : Ev → SState → SState
  | .cycle frames, s =>
    if s.running then { s with nd := run_cycle frames s.nd, captures := s.captures + 1 } else s
  | .captureError, s => if s.running then { s with running := false } else s
  | .query, s => { s with nd := (get_network_status s.running s.nd).1 }
  | .action ip a l, s => { s with nd := (device_action ip a l s.nd).1 }
  | .reset, s => { s with nd := [] }

/-- Run a sequence of events. -/
def sys_run (evs : List Ev) (s : SState) : SState :=
  evs.foldl (fun s2 e => sys_step e s2) s

/-!
Reference-semantics model for the snapshot claim. In Python the registry
maps each IP to a reference to a mutable dict, and
list(network_devices.values()) builds a new list holding those same
references; field assignments mutate the shared dicts. The heap holds the
device records, addressed by index; the registry maps IPs to addresses.
-/

/-- A heap of device records; the address is the list index. -/
structure PySys where
  heap : List Device
  reg : List (String × Nat)

/-- Mutate the record stored at one heap address. -/
def heap_modify (f : Device → Device) : Nat → List Device → List Device
  | _, [] => []
  | 0, d :: rest => f d :: rest
  | n + 1, d :: rest => d :: heap_modify f n rest

/-- Model of list(network_devices.values()) (line 365): a fresh list
whose elements are the references stored in the dict. -/
def list_values (s : PySys) : List Nat :=
  s.reg.map Prod.snd

/-- Reading the records a returned reference list points at, in the
current heap: what a caller holding the returned list observes. -/
def deref (s : PySys) (addrs : List Nat) : List (Option Device) :=
  addrs.map (fun a => s.heap.get? a)

/-- In-place mutation of the record registered for an IP, as device_action
and the ingestion callback perform it on the shared dict. -/
def mutate_record (ip : String) (f : Device → Device) (s : PySys) : PySys :=
  match alookup ip s.reg with
  | some a => { s with heap := heap_modify f a s.heap }
  | none => s

/-- The in-place status write of a manual block (line 417). -/
def set_blocked (d : Device) : Device :=
  { d with status := "Blocked" }

/-- Concrete plaintext HTTP frame on port 80 with a Host header. -/
def pktHTTP : Packet :=
  { src_ip := "10.0.0.5", src_mac := "90:3A:D9:11:22:33", length := 120, ttl := 64,
    tcp := some (50000, 80), udp := none, icmp := false,
    raw := some "GET / HTTP/1.1\r\nHost: example.org\r\nAccept: text/html" }

/-- Concrete HTTPS frame on port 443, no payload inspection possible. -/
def pkt443 : Packet :=
  { src_ip := "10.0.0.5", src_mac := "90:3A:D9:11:22:33", length := 90, ttl := 64,
    tcp := some (50000, 443), udp := none, icmp := false, raw := none }

/-- Concrete DNS frame carrying a real (non-placeholder) source MAC. -/
def pktReal : Packet :=
  { src_ip := "10.0.0.7", src_mac := "C8:3E:99:44:55:66", length := 80, ttl := 128,
    tcp := none, udp := some (999, 53), icmp := false, raw := none }

/-- Concrete Connected device with a learned plaintext hostname. -/
def dConn : Device :=
  { id := "HOST-5", ip := "10.0.0.5", macAddress := "90:3A:D9:11:22:33",
    manufacturer := "Apple, Inc. (iPhone/Mac)", os_fingerprint := "Windows (TTL ~128)",
    status := "Connected", packetCount := 3, recentPacketHistory := [1, 2],
    bandwidthHistoryTotal := 500, recentBandwidthRate := [100, 200], packetLimit := 1500,
    last_protocol := "TCP", last_port := some 80, is_local := true,
    deviceType := "Móvil/Tablet", last_visited_domain := "example.com",
    packetLengthThisCycle := [] }

/-- Concrete Connected device whose window sum 1700 exceeds the limit. -/
def dHot : Device :=
  { dConn with recentPacketHistory := [400, 400, 400, 200, 300] }

/-- Concrete Blocked device whose identity is still the placeholder. -/
def dBlockedZero : Device :=
  { id := "HOST-7", ip := "10.0.0.7", macAddress := "00:00:00:00:00:00",
    manufacturer := "N/A", os_fingerprint := "Desconocido/Router",
    status := "Blocked", packetCount := 9, recentPacketHistory := [4],
    bandwidthHistoryTotal := 700, recentBandwidthRate := [300], packetLimit := 1500,
    last_protocol := "UDP", last_port := some 53, is_local := true,
    deviceType := "PC/Laptop", last_visited_domain := "old.example",
    packetLengthThisCycle := [10] }

/-- One-device registry around dHot. -/
def nd1 : Registry := [("10.0.0.5", dHot)]

/-- One-device registry around dBlockedZero. -/
def ndB : Registry := [("10.0.0.7", dBlockedZero)]

/-- Running system state over nd1. -/
def sRun : SState := { running := true, nd := nd1, captures := 0 }

/-- Concrete heap-based system: one Connected record at address 0. -/
def s0 : PySys := { heap := [dConn], reg := [("10.0.0.5", 0)] }

/-- Concrete Connected device with placeholder identity. -/
def dConnZero : Device := { dBlockedZero with status := "Connected" }

/-- One-device registry around dConnZero. -/
def ndZ : Registry := [("10.0.0.7", dConnZero)]

/-- Concrete Connected device with a full window and cycle traffic. -/
def dCyc : Device := { dHot with packetLengthThisCycle := [100, 200] }

/-- Window invariant for one device: both sliding histories fit the
detection window. -/
abbrev histOk (d : Device) : Prop :=
  d.recentPacketHistory.length ≤ DETECTION_WINDOW_SIZE ∧
  d.recentBandwidthRate.length ≤ DETECTION_WINDOW_SIZE

/-- Window invariant over the whole registry. -/
abbrev regOk (nd : Registry) : Prop :=
  ∀ p ∈ nd, histOk p.2


/-! Association-list lemmas. -/

lemma alookup_amap {β : Type} (f : β → β) (k : String) :
    ∀ l : List (String × β), alookup k (amap f l) = (alookup k l).map f := by
  intro l
  induction l with
  | nil => rfl
  | cons p rest ih =>
    cases p with
    | mk k2 v =>
      simp only [amap, alookup]
      split
      · rfl
      · exact ih

lemma alookup_aupdate_self {β : Type} (f : β → β) (k : String) :
    ∀ l : List (String × β), alookup k (aupdate k f l) = (alookup k l).map f := by
  intro l
  induction l with
  | nil => rfl
  | cons p rest ih =>
    cases p with
    | mk k2 v =>
      by_cases h : k2 = k
      · simp only [aupdate, alookup, if_pos h]
        rfl
      · simp only [aupdate, alookup, if_neg h]
        exact ih

lemma alookup_aupdate_ne {β : Type} (f : β → β) (k k2 : String) (hne : k2 ≠ k) :
    ∀ l : List (String × β), alookup k2 (aupdate k f l) = alookup k2 l := by
  intro l
  induction l with
  | nil => rfl
  | cons p rest ih =>
    cases p with
    | mk k3 v =>
      by_cases h : k3 = k
      · have hne2 : k3 ≠ k2 := by
          intro h2
          exact hne (h2.symm.trans h)
        simp [aupdate, alookup, h, hne2, Ne.symm hne]
      · simp only [aupdate, if_neg h, alookup]
        split
        · rfl
        · exact ih

lemma alookup_append_some {β : Type} (k : String) (v : β) :
    ∀ (l l2 : List (String × β)), alookup k l = some v → alookup k (l ++ l2) = some v := by
  intro l l2 h
  induction l with
  | nil => simp [alookup] at h
  | cons p rest ih =>
    cases p with
    | mk k2 w =>
      simp only [alookup, List.cons_append] at h ⊢
      split at h
      · simp_all [alookup]
      · simp_all [alookup]

lemma alookup_some_mem {β : Type} (k : String) (v : β) :
    ∀ l : List (String × β), alookup k l = some v → (k, v) ∈ l := by
  intro l h
  induction l with
  | nil => simp [alookup] at h
  | cons p rest ih =>
    cases p with
    | mk k2 w =>
      simp only [alookup] at h
      split at h
      · rename_i heq
        injection h with h2
        subst heq h2
        exact List.mem_cons_self _ _
      · exact List.mem_cons_of_mem _ (ih h)

/-! Per-device effect lemmas. -/

lemma ingest_update_blocked (pkt : Packet) (d : Device) (h : d.status = "Blocked") :
    ingest_update pkt d = d := by
  simp [ingest_update, h]

lemma aggregate_device_blocked (d : Device) (h : d.status = "Blocked") :
    aggregate_device d = d := by
  simp [aggregate_device, h]

lemma detect_device_blocked (d : Device) (h : d.status = "Blocked") :
    detect_device d = d := by
  simp [detect_device, h]

lemma ingest_update_fields (pkt : Packet) (d : Device) :
    (ingest_update pkt d).recentPacketHistory = d.recentPacketHistory ∧
    (ingest_update pkt d).recentBandwidthRate = d.recentBandwidthRate ∧
    (ingest_update pkt d).status = d.status ∧
    (ingest_update pkt d).packetLimit = d.packetLimit := by
  by_cases hb : d.status = "Blocked"
  · simp [ingest_update, hb]
  · by_cases h1 : d.os_fingerprint = "Desconocido/Router" ∨ d.os_fingerprint = "Linux/Unix (TTL ~64)"
      <;> by_cases h2 : d.macAddress = "00:00:00:00:00:00" ∨ d.manufacturer = "N/A"
      <;> by_cases h3 : extract_domain pkt = "N/A o Protocolo No Web"
      <;> by_cases h4 : extract_domain pkt = "DNS (Nombre Cifrado)"
      <;> simp [ingest_update, hb, h1, h2, h3, h4]

lemma clear_cycle_fields (d : Device) :
    (clear_cycle d).recentPacketHistory = d.recentPacketHistory ∧
    (clear_cycle d).recentBandwidthRate = d.recentBandwidthRate ∧
    (clear_cycle d).status = d.status ∧
    (clear_cycle d).packetCount = d.packetCount ∧
    (clear_cycle d).bandwidthHistoryTotal = d.bandwidthHistoryTotal := by
  simp [clear_cycle]

lemma act_status_fields (a : String) (d : Device) :
    (act_status a d).recentPacketHistory = d.recentPacketHistory ∧
    (act_status a d).recentBandwidthRate = d.recentBandwidthRate ∧
    (act_status a d).packetCount = d.packetCount ∧
    (act_status a d).bandwidthHistoryTotal = d.bandwidthHistoryTotal ∧
    (act_status a d).packetLimit = d.packetLimit := by
  unfold act_status
  repeat' split
  all_goals simp

lemma act_status_status (a : String) (d : Device) :
    (act_status a d).status =
      if a = "block" then "Blocked" else if a = "unblock" then "Connected" else d.status := by
  unfold act_status
  repeat' split
  all_goals simp_all

lemma apply_limit_ok_fields (l : Option Json) (d d2 : Device)
    (h : apply_limit l d = .ok d2) :
    d2.recentPacketHistory = d.recentPacketHistory ∧
    d2.recentBandwidthRate = d.recentBandwidthRate ∧
    d2.packetCount = d.packetCount ∧
    d2.bandwidthHistoryTotal = d.bandwidthHistoryTotal ∧
    d2.status = d.status := by
  cases l with
  | none =>
    simp only [apply_limit] at h
    injection h with h2
    rw [← h2]
    simp
  | some v =>
    cases hpy : py_int v with
    | ok n =>
      simp only [apply_limit, hpy] at h
      injection h with h2
      rw [← h2]
      split <;> simp
    | error e =>
      cases e with
      | valueError =>
        simp only [apply_limit, hpy] at h
        injection h with h2
        rw [← h2]
        simp
      | typeError =>
        simp [apply_limit, hpy] at h

lemma aggregate_histOk (d : Device) (h : histOk d) : histOk (aggregate_device d) := by
  rcases h with ⟨h1, h2⟩
  unfold aggregate_device
  split
  · dsimp only
    by_cases hs : d.packetLengthThisCycle.sum > 0
    · rw [if_pos hs]
      constructor <;>
      · split <;> split <;>
          simp_all [DETECTION_WINDOW_SIZE, List.length_tail] <;> omega
    · rw [if_neg hs]
      constructor <;>
      · split <;> split <;>
          simp_all [DETECTION_WINDOW_SIZE, List.length_tail] <;> omega
  · exact ⟨h1, h2⟩

lemma detect_histOk (d : Device) (h : histOk d) : histOk (detect_device d) := by
  unfold detect_device
  rcases h with ⟨h1, h2⟩
  split
  · exact ⟨h1, h2⟩
  · split
    · constructor
      all_goals simp [DETECTION_WINDOW_SIZE]
    · exact ⟨h1, h2⟩

lemma aggregate_fifo (d : Device) (hb : d.status ≠ "Blocked")
    (hs : 0 < d.packetLengthThisCycle.sum) :
    (d.recentPacketHistory.length = DETECTION_WINDOW_SIZE →
      (aggregate_device d).recentPacketHistory =
        d.recentPacketHistory.tail ++ [d.packetLengthThisCycle.length]) ∧
    (d.recentBandwidthRate.length = DETECTION_WINDOW_SIZE →
      (aggregate_device d).recentBandwidthRate =
        d.recentBandwidthRate.tail ++ [d.packetLengthThisCycle.sum]) := by
  constructor
  · intro h5
    cases hl : d.recentPacketHistory with
    | nil => rw [hl] at h5; simp [DETECTION_WINDOW_SIZE] at h5
    | cons a t =>
      simp [aggregate_device, hb, hs, hl]
      repeat' split
      all_goals simp_all [DETECTION_WINDOW_SIZE]
  · intro h5
    cases hl : d.recentBandwidthRate with
    | nil => rw [hl] at h5; simp [DETECTION_WINDOW_SIZE] at h5
    | cons a t =>
      simp [aggregate_device, hb, hs, hl]
      repeat' split
      all_goals simp_all [DETECTION_WINDOW_SIZE]

lemma histOk_mkNewDevice (pkt : Packet) : histOk (mkNewDevice pkt) := by
  constructor <;> simp [mkNewDevice, DETECTION_WINDOW_SIZE]

lemma regOk_amap (f : Device → Device) (hf : ∀ d, histOk d → histOk (f d)) :
    ∀ nd : Registry, regOk nd → regOk (amap f nd) := by
  intro nd h
  induction nd with
  | nil => intro p hp; simp [amap] at hp
  | cons q rest ih =>
    cases q with
    | mk k v =>
      intro p hp
      simp only [amap, List.mem_cons] at hp
      rcases hp with h1 | h2
      · subst h1
        exact hf v (h (k, v) (List.mem_cons_self _ _))
      · exact ih (fun r hr => h r (List.mem_cons_of_mem _ hr)) p h2

lemma regOk_aupdate (k : String) (f : Device → Device) (hf : ∀ d, histOk d → histOk (f d)) :
    ∀ nd : Registry, regOk nd → regOk (aupdate k f nd) := by
  intro nd h
  induction nd with
  | nil => intro p hp; simp [aupdate] at hp
  | cons q rest ih =>
    cases q with
    | mk k2 v =>
      intro p hp
      by_cases hk : k2 = k
      · rw [aupdate, if_pos hk] at hp
        rcases List.mem_cons.mp hp with h1 | h2
        · subst h1
          exact hf v (h (k2, v) (List.mem_cons_self _ _))
        · exact h p (List.mem_cons_of_mem _ h2)
      · rw [aupdate, if_neg hk] at hp
        rcases List.mem_cons.mp hp with h1 | h2
        · subst h1
          exact h (k2, v) (List.mem_cons_self _ _)
        · exact ih (fun r hr => h r (List.mem_cons_of_mem _ hr)) p h2

lemma regOk_append_one (nd : Registry) (k : String) (d : Device)
    (h : regOk nd) (hd : histOk d) : regOk (nd ++ [(k, d)]) := by
  intro p hp
  rcases List.mem_append.mp hp with h1 | h2
  · exact h p h1
  · simp only [List.mem_singleton] at h2
    subst h2
    exact hd

lemma heap_modify_get (f : Device → Device) :
    ∀ (l : List Device) (a x : Nat),
      (heap_modify f a l).get? x = if x = a then (l.get? x).map f else l.get? x := by
  intro l
  induction l with
  | nil =>
    intro a x
    simp [heap_modify]
  | cons d rest ih =>
    intro a x
    cases a with
    | zero =>
      cases x with
      | zero => simp [heap_modify]
      | succ y => simp [heap_modify]
    | succ b =>
      cases x with
      | zero => simp [heap_modify]
      | succ y =>
        have h2 := ih b y
        simp only [heap_modify, List.get?_cons_succ, h2, Nat.succ.injEq]

lemma oui_value_ne (k v : String) (h : alookup k OUI_MAPPING = some v) : v ≠ "N/A" := by
  have hm : (k, v) ∈ OUI_MAPPING := alookup_some_mem k v _ h
  have hv : v ∈ OUI_MAPPING.map Prod.snd := List.mem_map_of_mem Prod.snd hm
  simp only [OUI_MAPPING, List.map_cons, List.map_nil, List.mem_cons,
    List.not_mem_nil, or_false] at hv
  rcases hv with rfl | rfl | rfl | rfl | rfl | rfl <;> decide

lemma get_manufacturer_ne_NA (mac : String) (h1 : mac ≠ "")
    (h2 : mac ≠ "00:00:00:00:00:00") : get_manufacturer mac ≠ "N/A" := by
  unfold get_manufacturer
  rw [if_pos ⟨h1, h2⟩]
  cases hl : alookup (py_upper (py_take 8 mac)) OUI_MAPPING with
  | none => decide
  | some v => simpa using oui_value_ne _ v hl

lemma ingest_update_mac (pkt : Packet) (d : Device) (hb : d.status ≠ "Blocked") :
    ((d.macAddress = "00:00:00:00:00:00" ∨ d.manufacturer = "N/A") →
      (ingest_update pkt d).macAddress = pkt.src_mac ∧
      (ingest_update pkt d).manufacturer = get_manufacturer pkt.src_mac) ∧
    (¬ (d.macAddress = "00:00:00:00:00:00" ∨ d.manufacturer = "N/A") →
      (ingest_update pkt d).macAddress = d.macAddress ∧
      (ingest_update pkt d).manufacturer = d.manufacturer) := by
  constructor <;> intro h2 <;>
    by_cases h1 : d.os_fingerprint = "Desconocido/Router" ∨
      d.os_fingerprint = "Linux/Unix (TTL ~64)" <;>
    by_cases h3 : extract_domain pkt = "N/A o Protocolo No Web" <;>
    by_cases h4 : extract_domain pkt = "DNS (Nombre Cifrado)" <;>
    simp [ingest_update, hb, h1, h2, h3, h4]

lemma ingest_histOk (pkt : Packet) (d : Device) (hd : histOk d) :
    histOk (ingest_update pkt d) := by
  have hf := ingest_update_fields pkt d
  constructor
  · rw [hf.1]; exact hd.1
  · rw [hf.2.1]; exact hd.2

lemma clear_histOk (d : Device) (hd : histOk d) : histOk (clear_cycle d) := by
  constructor
  · simpa [clear_cycle] using hd.1
  · simpa [clear_cycle] using hd.2

lemma act_then_limit_fields (a : String) (lim : Option Json) (d0 dr : Device)
    (h : apply_limit lim (act_status a d0) = .ok dr ∨ dr = act_status a d0) :
    dr.packetCount = d0.packetCount ∧
    dr.bandwidthHistoryTotal = d0.bandwidthHistoryTotal ∧
    dr.recentPacketHistory = d0.recentPacketHistory ∧
    dr.recentBandwidthRate = d0.recentBandwidthRate ∧
    dr.status = (act_status a d0).status := by
  have h2 := act_status_fields a d0
  rcases h with h | h
  · have h1 := apply_limit_ok_fields lim (act_status a d0) dr h
    exact ⟨h1.2.2.1.trans h2.2.2.1, h1.2.2.2.1.trans h2.2.2.2.1,
      h1.1.trans h2.1, h1.2.1.trans h2.2.1, h1.2.2.2.2⟩
  · subst h
    exact ⟨h2.2.2.1, h2.2.2.2.1, h2.1, h2.2.1, rfl⟩

lemma act_then_limit_histOk (a : String) (lim : Option Json) (d0 dr : Device)
    (h : apply_limit lim (act_status a d0) = .ok dr ∨ dr = act_status a d0)
    (hd : histOk d0) : histOk dr := by
  have hf := act_then_limit_fields a lim d0 dr h
  constructor
  · rw [hf.2.2.1]; exact hd.1
  · rw [hf.2.2.2.1]; exact hd.2

lemma get_network_status_stopped (nd : Registry) :
    get_network_status false nd = (nd, ⟨500, [], ⟨false, false⟩⟩) := rfl

lemma sys_step_stopped (e : Ev) (s : SState) (h : s.running = false) :
    (sys_step e s).running = false ∧ (sys_step e s).captures = s.captures := by
  cases e <;> simp [sys_step, h, get_network_status, update_network_status]

lemma sys_run_stopped (evs : List Ev) :
    ∀ s : SState, s.running = false →
    (sys_run evs s).running = false ∧ (sys_run evs s).captures = s.captures := by
  induction evs with
  | nil => intro s h; exact ⟨h, rfl⟩
  | cons e rest ih =>
    intro s h
    have h1 := sys_step_stopped e s h
    have h2 := ih (sys_step e s) h1.1
    exact ⟨h2.1, h2.2.trans h1.2⟩

/-- C1: the query-time detector pass run by update_network_status sets a
Connected device to Blocked and replaces both histories with the empty
list exactly when the window sum exceeds packetLimit, and leaves the
device unchanged otherwise. -/
theorem C1_query_pass_blocks_iff_over_limit :
    ∀ (nd : Registry) (ip : String) (d : Device),
    alookup ip nd = some d → d.status = "Connected" →
    alookup ip (detection_pass nd) = some (detect_device d) ∧
    ((d.recentPacketHistory.sum : Int) > d.packetLimit →
      detect_device d =
        { d with status := "Blocked", recentPacketHistory := [], recentBandwidthRate := [] }) ∧
    (¬ (d.recentPacketHistory.sum : Int) > d.packetLimit → detect_device d = d) := by
  intro nd ip d hl hc
  refine ⟨?_, ?_, ?_⟩
  · rw [detection_pass, alookup_amap, hl]
    rfl
  · intro hgt
    have hcne : ¬ d.status = "Blocked" := by rw [hc]; decide
    unfold detect_device
    rw [if_neg hcne, if_pos hgt]
  · intro hle
    have hcne : ¬ d.status = "Blocked" := by rw [hc]; decide
    unfold detect_device
    rw [if_neg hcne, if_neg hle]

/-- Witness for C1 at a concrete over-limit Connected device. -/
theorem C1_witness :
    ((dHot.recentPacketHistory.sum : Int) > dHot.packetLimit) ∧
    detect_device dHot =
      { dHot with status := "Blocked", recentPacketHistory := [], recentBandwidthRate := [] } :=
  ⟨by decide,
    (C1_query_pass_blocks_iff_over_limit nd1 "10.0.0.5" dHot (by decide) (by decide)).2.1
      (by decide)⟩

/-- C7: with the sniffing loop stopped, update_network_status raises and
the endpoint answers 500 with an empty device list and isRunning false,
never substituting synthetic data. -/
theorem C7_stopped_query_fails :
    ∀ (nd : Registry) (running : Bool), running = false →
    update_network_status running nd =
      .error "El hilo de auditoría real no está activo. Verifique los logs de error." ∧
    get_network_status running nd = (nd, ⟨500, [], ⟨false, false⟩⟩) := by
  intro nd running h
  subst h
  exact ⟨rfl, rfl⟩

/-- Witness for C7 on the empty registry. -/
theorem C7_witness :
    update_network_status false [] =
      .error "El hilo de auditoría real no está activo. Verifique los logs de error." ∧
    get_network_status false [] = ([], ⟨500, [], ⟨false, false⟩⟩) :=
  C7_stopped_query_fails [] false rfl

/-- C8: the Stopped state is terminal: after a capture error clears the
running flag, any further event sequence leaves the flag false, performs
no further capture cycle, and every status query answers 500 with
isRunning false. -/
theorem C8_stopped_is_terminal :
    ∀ (s : SState), s.running = true → ∀ (evs : List Ev),
    (sys_step Ev.captureError s).running = false ∧
    (sys_run evs (sys_step Ev.captureError s)).running = false ∧
    (sys_run evs (sys_step Ev.captureError s)).captures = s.captures ∧
    (get_network_status (sys_run evs (sys_step Ev.captureError s)).running
      (sys_run evs (sys_step Ev.captureError s)).nd).2 = ⟨500, [], ⟨false, false⟩⟩ := by
  intro s hr evs
  have h0 : (sys_step Ev.captureError s).running = false := by simp [sys_step, hr]
  have h0c : (sys_step Ev.captureError s).captures = s.captures := by simp [sys_step, hr]
  have h1 := sys_run_stopped evs _ h0
  refine ⟨h0, h1.1, h1.2.trans h0c, ?_⟩
  rw [h1.1]
  rw [get_network_status_stopped]

/-- Witness for C8 on a concrete running state and one later query. -/
theorem C8_witness :
    (sys_step Ev.captureError sRun).running = false ∧
    (sys_run [Ev.query] (sys_step Ev.captureError sRun)).running = false ∧
    (sys_run [Ev.query] (sys_step Ev.captureError sRun)).captures = sRun.captures ∧
    (get_network_status (sys_run [Ev.query] (sys_step Ev.captureError sRun)).running
      (sys_run [Ev.query] (sys_step Ev.captureError sRun)).nd).2 = ⟨500, [], ⟨false, false⟩⟩ :=
  C8_stopped_is_terminal sRun rfl [Ev.query]

/-- C9 counterexample: the device list built by the query is only a
shallow copy — list(network_devices.values()) copies the list of dict
references, so a later in-place registry mutation (here a manual block)
changes the data observed through the already-returned list. -/
theorem C9_counterexample_aliasing :
    list_values s0 = [0] ∧
    deref s0 (list_values s0) = [some dConn] ∧
    deref (mutate_record "10.0.0.5" set_blocked s0) (list_values s0) =
      [some (set_blocked dConn)] ∧
    set_blocked dConn ≠ dConn := by decide

/-- C9 amended: the returned list itself is a fresh value (registry-level
mutation leaves it unchanged), but its entries alias the live records: a
later in-place mutation of the record registered for an IP is visible at
exactly that record's position when reading through the returned list. -/
theorem C9_amended_shallow_copy :
    ∀ (s : PySys) (ip : String) (f : Device → Device),
    list_values (mutate_record ip f s) = list_values s ∧
    (∀ a, alookup ip s.reg = some a →
      deref (mutate_record ip f s) (list_values s) =
        (list_values s).map
          (fun x => if x = a then (s.heap.get? x).map f else s.heap.get? x)) := by
  intro s ip f
  constructor
  · unfold mutate_record
    cases alookup ip s.reg with
    | none => rfl
    | some a => rfl
  · intro a ha
    unfold mutate_record
    rw [ha]
    simp only [deref, list_values]
    have hfun : (fun x => (heap_modify f a s.heap).get? x) =
        (fun x => if x = a then (s.heap.get? x).map f else s.heap.get? x) :=
      funext (fun x => heap_modify_get f s.heap a x)
    rw [← hfun]

/-- Witness for the amended C9 on the concrete one-device system. -/
theorem C9_witness :
    list_values (mutate_record "10.0.0.5" set_blocked s0) = list_values s0 ∧
    deref (mutate_record "10.0.0.5" set_blocked s0) (list_values s0) =
      (list_values s0).map
        (fun x => if x = 0 then (s0.heap.get? x).map set_blocked else s0.heap.get? x) := by
  have H := C9_amended_shallow_copy s0 "10.0.0.5" set_blocked
  exact ⟨H.1, H.2 0 rfl⟩

/-- C10: a device-action request on a known IP with an action that is
neither block nor unblock but with a valid positive limit still replaces
packetLimit and answers success true — an unknown action is not a
complete no-op. -/
theorem C10_unknown_action_still_applies_limit :
    ∀ (nd : Registry) (ip a : String) (v : Json) (d : Device) (n : Int),
    alookup ip nd = some d → a ≠ "block" → a ≠ "unblock" →
    py_int v = .ok n → 0 < n →
    (device_action ip a (some v) nd).2 =
      .ok ⟨200, true, some { d with packetLimit := n }⟩ ∧
    alookup ip (device_action ip a (some v) nd).1 = some { d with packetLimit := n } := by
  intro nd ip a v d n hl ha hb hv hp
  have hact : act_status a d = d := by simp [act_status, ha, hb]
  constructor
  · simp only [device_action, hl, apply_limit, hv, hact, if_pos hp]
  · simp only [device_action, hl, apply_limit, hv, hact, if_pos hp]
    rw [alookup_aupdate_self, hl]
    rfl

/-- Witness for C10 with an unknown action and limit 2000. -/
theorem C10_witness :
    py_int (Json.jint 2000) = .ok 2000 ∧
    (device_action "10.0.0.5" "noop" (some (Json.jint 2000)) nd1).2 =
      .ok ⟨200, true, some { dHot with packetLimit := 2000 }⟩ := by
  have H := C10_unknown_action_still_applies_limit nd1 "10.0.0.5" "noop"
    (Json.jint 2000) dHot 2000 (by decide) (by decide) (by decide) rfl (by decide)
  exact ⟨rfl, H.1⟩

/-- C4 counterexample: the ingestion update excludes only the two
sentinels for DNS and non-web traffic, so the HTTPS sentinel does
overwrite last_visited_domain of a Connected device; and a Blocked device
keeps its old domain even for a real classified hostname. -/
theorem C4_counterexample_https_overwrites :
    dConn.status = "Connected" ∧
    dConn.last_visited_domain = "example.com" ∧
    extract_domain pkt443 = "HTTPS (Dominio Cifrado)" ∧
    (ingest_update pkt443 dConn).last_visited_domain = "HTTPS (Dominio Cifrado)" ∧
    extract_domain pktHTTP = "example.org" ∧
    dBlockedZero.status = "Blocked" ∧
    dBlockedZero.last_visited_domain = "old.example" ∧
    (ingest_update pktHTTP dBlockedZero).last_visited_domain = "old.example" := by decide

/-- C4 amended: for a non-Blocked device, last_visited_domain is replaced
by the classified domain unless that domain is one of the two sentinels
for DNS and non-web traffic (the HTTPS sentinel does overwrite); a
Blocked device never has it updated. -/
theorem C4_amended_domain_update :
    ∀ (pkt : Packet) (d : Device),
    (d.status ≠ "Blocked" →
      ((extract_domain pkt ≠ "N/A o Protocolo No Web" ∧
        extract_domain pkt ≠ "DNS (Nombre Cifrado)") →
        (ingest_update pkt d).last_visited_domain = extract_domain pkt) ∧
      ((extract_domain pkt = "N/A o Protocolo No Web" ∨
        extract_domain pkt = "DNS (Nombre Cifrado)") →
        (ingest_update pkt d).last_visited_domain = d.last_visited_domain)) ∧
    (d.status = "Blocked" →
      (ingest_update pkt d).last_visited_domain = d.last_visited_domain) := by
  intro pkt d
  constructor
  · intro hb
    constructor
    · intro hd
      by_cases h1 : d.os_fingerprint = "Desconocido/Router" ∨
          d.os_fingerprint = "Linux/Unix (TTL ~64)" <;>
        by_cases h2 : d.macAddress = "00:00:00:00:00:00" ∨ d.manufacturer = "N/A" <;>
        simp [ingest_update, hb, h1, h2, hd, hd.1, hd.2]
    · intro hd
      by_cases h1 : d.os_fingerprint = "Desconocido/Router" ∨
          d.os_fingerprint = "Linux/Unix (TTL ~64)" <;>
        by_cases h2 : d.macAddress = "00:00:00:00:00:00" ∨ d.manufacturer = "N/A" <;>
        rcases hd with hd | hd <;>
        simp [ingest_update, hb, h1, h2, hd]
  · intro hb
    rw [ingest_update_blocked pkt d hb]

/-- Witness for the amended C4 on a plaintext HTTP frame with a Host
header hitting a Connected device. -/
theorem C4_witness :
    dConn.status ≠ "Blocked" ∧
    extract_domain pktHTTP ≠ "N/A o Protocolo No Web" ∧
    extract_domain pktHTTP ≠ "DNS (Nombre Cifrado)" ∧
    (ingest_update pktHTTP dConn).last_visited_domain = extract_domain pktHTTP := by
  have H := ((C4_amended_domain_update pktHTTP dConn).1 (by decide)).1 ⟨by decide, by decide⟩
  exact ⟨by decide, by decide, by decide, H⟩

/-- C5 counterexample: the metadata refresh sits inside the non-Blocked
guard, so a Blocked record whose stored MAC is the zero sentinel is not
refreshed by a second frame carrying a real MAC — the refresh condition
of the claim holds yet nothing changes. -/
theorem C5_counterexample_blocked_no_refresh :
    dBlockedZero.status = "Blocked" ∧
    dBlockedZero.macAddress = "00:00:00:00:00:00" ∧
    dBlockedZero.manufacturer = "N/A" ∧
    pktReal.src_mac = "C8:3E:99:44:55:66" ∧
    alookup "10.0.0.7" ndB = some dBlockedZero ∧
    alookup "10.0.0.7" (packet_callback pktReal ndB) = some dBlockedZero := by decide

/-- C5 amended: a second frame for a known IP refreshes the stored MAC
and manufacturer exactly when the device is not Blocked and the stored
MAC is the zero sentinel or the stored manufacturer is the placeholder;
otherwise both identity fields are kept, and a record created from a
frame with a real MAC never carries the placeholder manufacturer, so
repeated ingestion is idempotent on these fields. -/
theorem C5_amended_refresh_iff :
    ∀ (nd : Registry) (pkt : Packet) (d : Device),
    alookup pkt.src_ip nd = some d →
    alookup pkt.src_ip (packet_callback pkt nd) = some (ingest_update pkt d) ∧
    ((d.status ≠ "Blocked" ∧
      (d.macAddress = "00:00:00:00:00:00" ∨ d.manufacturer = "N/A")) →
      (ingest_update pkt d).macAddress = pkt.src_mac ∧
      (ingest_update pkt d).manufacturer = get_manufacturer pkt.src_mac) ∧
    (¬ (d.status ≠ "Blocked" ∧
      (d.macAddress = "00:00:00:00:00:00" ∨ d.manufacturer = "N/A")) →
      (ingest_update pkt d).macAddress = d.macAddress ∧
      (ingest_update pkt d).manufacturer = d.manufacturer) ∧
    (pkt.src_mac ≠ "" → pkt.src_mac ≠ "00:00:00:00:00:00" →
      (mkNewDevice pkt).macAddress = pkt.src_mac ∧
      (mkNewDevice pkt).manufacturer ≠ "N/A") := by
  intro nd pkt d hl
  refine ⟨?_, ?_, ?_, ?_⟩
  · simp only [packet_callback, hl]
    rw [alookup_aupdate_self, hl]
    rfl
  · rintro ⟨hb, hm⟩
    exact (ingest_update_mac pkt d hb).1 hm
  · intro hn
    by_cases hb : d.status = "Blocked"
    · rw [ingest_update_blocked pkt d hb]
      exact ⟨rfl, rfl⟩
    · have hm : ¬ (d.macAddress = "00:00:00:00:00:00" ∨ d.manufacturer = "N/A") := by
        intro hm2
        exact hn ⟨hb, hm2⟩
      exact (ingest_update_mac pkt d hb).2 hm
  · intro h1 h2
    constructor
    · rfl
    · simpa [mkNewDevice] using get_manufacturer_ne_NA pkt.src_mac h1 h2

/-- Witness for the amended C5: a Connected record with placeholder
identity is refreshed from the next frame's MAC. -/
theorem C5_witness :
    dConnZero.status ≠ "Blocked" ∧
    dConnZero.macAddress = "00:00:00:00:00:00" ∧
    (ingest_update pktReal dConnZero).macAddress = pktReal.src_mac ∧
    (ingest_update pktReal dConnZero).manufacturer = get_manufacturer pktReal.src_mac := by
  have H := (C5_amended_refresh_iff ndZ pktReal dConnZero (by decide)).2.1
    ⟨by decide, Or.inl (by decide)⟩
  exact ⟨by decide, by decide, H.1, H.2⟩

/-- C6 counterexample: a limit of the wrong JSON type (an array) makes
int(limit) raise TypeError, which the handler does not catch — the
request errors instead of still reporting success. -/
theorem C6_counterexample_wrong_type_errors :
    py_int (Json.jarr []) = .error .typeError ∧
    (device_action "10.0.0.5" "block" (some (Json.jarr [])) nd1).2 =
      .error .typeError := by
  exact ⟨rfl, rfl⟩

/-- C6 amended: a limit parsing to a positive int replaces packetLimit; a
non-positive parse or a ValueError (non-numeric string) is silently
ignored with the action still succeeding; but a TypeError (wrong-typed
JSON value such as an array) escapes: the response is an error, with the
status change already applied and packetLimit unchanged. -/
theorem C6_amended_limit_validation :
    ∀ (nd : Registry) (ip a : String) (d : Device),
    alookup ip nd = some d →
    (∀ (v : Json) (n : Int), py_int v = .ok n → 0 < n →
      (device_action ip a (some v) nd).2 =
        .ok ⟨200, true, some { act_status a d with packetLimit := n }⟩) ∧
    (∀ (v : Json) (n : Int), py_int v = .ok n → ¬ 0 < n →
      (device_action ip a (some v) nd).2 = .ok ⟨200, true, some (act_status a d)⟩) ∧
    (∀ v : Json, py_int v = .error .valueError →
      (device_action ip a (some v) nd).2 = .ok ⟨200, true, some (act_status a d)⟩) ∧
    (∀ v : Json, py_int v = .error .typeError →
      (device_action ip a (some v) nd).2 = .error .typeError ∧
      alookup ip (device_action ip a (some v) nd).1 = some (act_status a d)) := by
  intro nd ip a d hl
  refine ⟨?_, ?_, ?_, ?_⟩
  · intro v n hv hp
    simp only [device_action, hl, apply_limit, hv, if_pos hp]
  · intro v n hv hp
    simp only [device_action, hl, apply_limit, hv, if_neg hp]
  · intro v hv
    simp only [device_action, hl, apply_limit, hv]
  · intro v hv
    constructor
    · simp only [device_action, hl, apply_limit, hv]
    · simp only [device_action, hl, apply_limit, hv]
      rw [alookup_aupdate_self, hl]
      rfl

/-- Witness for the amended C6: a non-numeric string limit is ignored and
the action still succeeds. -/
theorem C6_witness :
    py_int (Json.jstr "abc") = .error .valueError ∧
    (device_action "10.0.0.5" "block" (some (Json.jstr "abc")) nd1).2 =
      .ok ⟨200, true, some (act_status "block" dHot)⟩ := by
  have H := (C6_amended_limit_validation nd1 "10.0.0.5" "block" dHot (by decide)).2.2.1
    (Json.jstr "abc") rfl
  exact ⟨rfl, H⟩

/-- C2: every operation preserves the window bound W=5 on both histories
for every device, and appending a per-cycle sample to a full window drops
exactly the oldest entry (FIFO). -/
theorem C2_window_bound_and_fifo :
    (∀ (op : Op) (nd : Registry), regOk nd → regOk (step op nd)) ∧
    (∀ d : Device, d.status ≠ "Blocked" → 0 < d.packetLengthThisCycle.sum →
      (d.recentPacketHistory.length = DETECTION_WINDOW_SIZE →
        (aggregate_device d).recentPacketHistory =
          d.recentPacketHistory.tail ++ [d.packetLengthThisCycle.length]) ∧
      (d.recentBandwidthRate.length = DETECTION_WINDOW_SIZE →
        (aggregate_device d).recentBandwidthRate =
          d.recentBandwidthRate.tail ++ [d.packetLengthThisCycle.sum])) := by
  constructor
  · intro op nd h
    cases op with
    | frame pkt =>
      simp only [step, packet_callback]
      cases hl : alookup pkt.src_ip nd with
      | none =>
        exact regOk_aupdate _ _ (fun d hd => ingest_histOk pkt d hd) _
          (regOk_append_one nd _ _ h (histOk_mkNewDevice pkt))
      | some d0 =>
        exact regOk_aupdate _ _ (fun d hd => ingest_histOk pkt d hd) _ h
    | cycleStart =>
      exact regOk_amap _ (fun d hd => clear_histOk d hd) nd h
    | cycleEnd =>
      exact regOk_amap _ (fun d hd => aggregate_histOk d hd) nd h
    | detectorPass =>
      exact regOk_amap _ (fun d hd => detect_histOk d hd) nd h
    | action ip a lim =>
      simp only [step, device_action]
      cases hl : alookup ip nd with
      | none => exact h
      | some d0 =>
        have hd0 : histOk d0 := h (ip, d0) (alookup_some_mem _ _ _ hl)
        cases hap : apply_limit lim (act_status a d0) with
        | ok d2 =>
          simp only [hap]
          exact regOk_aupdate _ _
            (fun _ _ => act_then_limit_histOk a lim d0 d2 (Or.inl hap) hd0) _ h
        | error e =>
          simp only [hap]
          exact regOk_aupdate _ _
            (fun _ _ => act_then_limit_histOk a lim d0 (act_status a d0) (Or.inr rfl) hd0) _ h
    | reset =>
      intro p hp
      simp only [step] at hp
      exact absurd hp (List.not_mem_nil p)
  · intro d hb hs
    exact aggregate_fifo d hb hs

/-- Witness for C2: the bound is preserved across one aggregation step on
a concrete registry, and a full window shifts FIFO on a concrete device. -/
theorem C2_witness :
    regOk nd1 ∧ regOk (step Op.cycleEnd nd1) ∧
    (dCyc.status ≠ "Blocked" ∧ 0 < dCyc.packetLengthThisCycle.sum ∧
      dCyc.recentPacketHistory.length = DETECTION_WINDOW_SIZE) ∧
    (aggregate_device dCyc).recentPacketHistory =
      dCyc.recentPacketHistory.tail ++ [dCyc.packetLengthThisCycle.length] := by
  refine ⟨by decide, C2_window_bound_and_fifo.1 Op.cycleEnd nd1 (by decide),
    ⟨by decide, by decide, by decide⟩, ?_⟩
  exact (C2_window_bound_and_fifo.2 dCyc (by decide) (by decide)).1 (by decide)

/-- C3: a Blocked device's packetCount, bandwidthHistoryTotal and both
histories are unchanged by every operation, and its status can leave
Blocked only through an explicit unblock action on its own IP. -/
theorem C3_blocked_device_frozen :
    ∀ (nd : Registry) (ip : String) (d : Device) (op : Op),
    alookup ip nd = some d → d.status = "Blocked" →
    ∀ d2, alookup ip (step op nd) = some d2 →
      (d2.packetCount = d.packetCount ∧
       d2.bandwidthHistoryTotal = d.bandwidthHistoryTotal ∧
       d2.recentPacketHistory = d.recentPacketHistory ∧
       d2.recentBandwidthRate = d.recentBandwidthRate) ∧
      (d2.status ≠ "Blocked" → ∃ lim, op = Op.action ip "unblock" lim) := by
  intro nd ip d op hl hb d2 hl2
  cases op with
  | frame pkt =>
    simp only [step, packet_callback] at hl2
    by_cases hip : pkt.src_ip = ip
    · subst hip
      rw [hl] at hl2
      simp only at hl2
      rw [alookup_aupdate_self, hl] at hl2
      simp only [Option.map_some'] at hl2
      rw [ingest_update_blocked pkt d hb] at hl2
      have he : d = d2 := Option.some.inj hl2
      subst he
      exact ⟨⟨rfl, rfl, rfl, rfl⟩, fun hc => absurd hb hc⟩
    · have hne : ip ≠ pkt.src_ip := fun e => hip e.symm
      cases hll : alookup pkt.src_ip nd with
      | none =>
        rw [hll] at hl2
        simp only at hl2
        rw [alookup_aupdate_ne _ _ _ hne,
          alookup_append_some ip d nd _ hl] at hl2
        have he : d = d2 := Option.some.inj hl2
        subst he
        exact ⟨⟨rfl, rfl, rfl, rfl⟩, fun hc => absurd hb hc⟩
      | some d0 =>
        rw [hll] at hl2
        simp only at hl2
        rw [alookup_aupdate_ne _ _ _ hne, hl] at hl2
        have he : d = d2 := Option.some.inj hl2
        subst he
        exact ⟨⟨rfl, rfl, rfl, rfl⟩, fun hc => absurd hb hc⟩
  | cycleStart =>
    simp only [step] at hl2
    rw [alookup_amap, hl] at hl2
    simp only [Option.map_some'] at hl2
    have he : clear_cycle d = d2 := Option.some.inj hl2
    have hf := clear_cycle_fields d
    refine ⟨⟨he ▸ hf.2.2.2.1, he ▸ hf.2.2.2.2, he ▸ hf.1, he ▸ hf.2.1⟩, fun hc => ?_⟩
    exact absurd (he ▸ hf.2.2.1 |>.trans hb) hc
  | cycleEnd =>
    simp only [step] at hl2
    rw [alookup_amap, hl] at hl2
    simp only [Option.map_some'] at hl2
    rw [aggregate_device_blocked d hb] at hl2
    have he : d = d2 := Option.some.inj hl2
    subst he
    exact ⟨⟨rfl, rfl, rfl, rfl⟩, fun hc => absurd hb hc⟩
  | detectorPass =>
    simp only [step, detection_pass] at hl2
    rw [alookup_amap, hl] at hl2
    simp only [Option.map_some'] at hl2
    rw [detect_device_blocked d hb] at hl2
    have he : d = d2 := Option.some.inj hl2
    subst he
    exact ⟨⟨rfl, rfl, rfl, rfl⟩, fun hc => absurd hb hc⟩
  | action ip2 a lim =>
    simp only [step, device_action] at hl2
    cases hll : alookup ip2 nd with
    | none =>
      rw [hll] at hl2
      simp only at hl2
      rw [hl] at hl2
      have he : d = d2 := Option.some.inj hl2
      subst he
      exact ⟨⟨rfl, rfl, rfl, rfl⟩, fun hc => absurd hb hc⟩
    | some d0 =>
      rw [hll] at hl2
      simp only at hl2
      by_cases hip : ip2 = ip
      · subst hip
        have hd0 : d0 = d := Option.some.inj (hll.symm.trans hl)
        subst hd0
        cases hap : apply_limit lim (act_status a d0) with
        | ok d3 =>
          rw [hap] at hl2
          simp only at hl2
          rw [alookup_aupdate_self, hl] at hl2
          simp only [Option.map_some'] at hl2
          have he : d3 = d2 := Option.some.inj hl2
          subst he
          have hf := act_then_limit_fields a lim d0 d3 (Or.inl hap)
          refine ⟨⟨hf.1, hf.2.1, hf.2.2.1, hf.2.2.2.1⟩, fun hc => ?_⟩
          rw [hf.2.2.2.2, act_status_status] at hc
          by_cases hba : a = "block"
          · rw [if_pos hba] at hc
            exact absurd rfl hc
          · rw [if_neg hba] at hc
            by_cases hub : a = "unblock"
            · subst hub
              exact ⟨lim, rfl⟩
            · rw [if_neg hub] at hc
              exact absurd hb hc
        | error e =>
          rw [hap] at hl2
          simp only at hl2
          rw [alookup_aupdate_self, hl] at hl2
          simp only [Option.map_some'] at hl2
          have he : act_status a d0 = d2 := Option.some.inj hl2
          have hf := act_then_limit_fields a lim d0 d2 (Or.inr he.symm)
          refine ⟨⟨hf.1, hf.2.1, hf.2.2.1, hf.2.2.2.1⟩, fun hc => ?_⟩
          rw [hf.2.2.2.2, act_status_status] at hc
          by_cases hba : a = "block"
          · rw [if_pos hba] at hc
            exact absurd rfl hc
          · rw [if_neg hba] at hc
            by_cases hub : a = "unblock"
            · subst hub
              exact ⟨lim, rfl⟩
            · rw [if_neg hub] at hc
              exact absurd hb hc
      · have hne : ip ≠ ip2 := fun e => hip e.symm
        cases hap : apply_limit lim (act_status a d0) with
        | ok d3 =>
          rw [hap] at hl2
          simp only at hl2
          rw [alookup_aupdate_ne _ _ _ hne, hl] at hl2
          have he : d = d2 := Option.some.inj hl2
          subst he
          exact ⟨⟨rfl, rfl, rfl, rfl⟩, fun hc => absurd hb hc⟩
        | error e =>
          rw [hap] at hl2
          simp only at hl2
          rw [alookup_aupdate_ne _ _ _ hne, hl] at hl2
          have he : d = d2 := Option.some.inj hl2
          subst he
          exact ⟨⟨rfl, rfl, rfl, rfl⟩, fun hc => absurd hb hc⟩
  | reset =>
    simp only [step, alookup] at hl2
    exact Option.noConfusion hl2

/-- Witness for C3: the start-of-cycle reset touches a Blocked device's
scratch list but none of its counters or histories. -/
theorem C3_witness :
    alookup "10.0.0.7" ndB = some dBlockedZero ∧
    dBlockedZero.status = "Blocked" ∧
    alookup "10.0.0.7" (step Op.cycleStart ndB) = some (clear_cycle dBlockedZero) ∧
    ((clear_cycle dBlockedZero).packetCount = dBlockedZero.packetCount ∧
     (clear_cycle dBlockedZero).bandwidthHistoryTotal = dBlockedZero.bandwidthHistoryTotal ∧
     (clear_cycle dBlockedZero).recentPacketHistory = dBlockedZero.recentPacketHistory ∧
     (clear_cycle dBlockedZero).recentBandwidthRate = dBlockedZero.recentBandwidthRate) := by
  refine ⟨by decide, by decide, by decide, ?_⟩
  exact (C3_blocked_device_frozen ndB "10.0.0.7" dBlockedZero Op.cycleStart (by decide)
    (by decide) (clear_cycle dBlockedZero) (by decide)).1
